import Mathlib

/-!
Verification development for the on-chain transaction subsystem of the
repository (src/core/onchain.py and src/core/bot.py).

The Python source is shallowly embedded below.  Python integers are
modelled as `Int`, Python floats appearing in deterministic arithmetic are
modelled as exact rationals `Rat`, fallible code is modelled with
`Except String`, network reads (balances, allowances, gas prices,
fee-history responses) are passed in as explicit arguments, and the network
calls a code path performs are returned as an explicit effect list.
The randomized multipliers drawn by `get_multiplayer(min, max)` are passed
in as explicit rational parameters (one per `_multiply` call site), since
each call draws an independent uniform sample.
-/

namespace TheTemplate

/-- Python `int(x)` truncates toward zero: floor for non-negative values,
ceiling for negative ones. -/
def pyInt (q : ℚ) : ℤ :=
  if 0 ≤ q then ⌊q⌋ else ⌈q⌉

/-- Embedding of `Onchain._multiply(value, min_mult, max_mult)`:
`int(value * get_multiplayer(min_mult, max_mult) * self.chain.multiplier)`.
The uniform sample returned by `get_multiplayer` is the parameter `r`;
the chain's own multiplier is `mult`. -/
def multiply (value : ℤ) (r mult : ℚ) : ℤ :=
  pyInt ((value : ℚ) * r * mult)

/-- Modelled from the spec: the `Chain` data class (models/chain.py is not
under src/): RPC identity, chain id, native asset symbol, the mutable cached
fee-model flag `is_eip1559 : unknown | legacy | eip1559` (here
`Option Bool`), and the per-chain gas safety multiplier.  Equality is
structural, per the spec's description of Chain as the identity of a
network. -/
structure ChainM where
  name : String
  chain_id : ℤ
  native_token : String
  multiplier : ℚ
  is_eip1559 : Option Bool
deriving DecidableEq, Repr

/-- A `w3.eth.fee_history` response as used by `_get_fee`: the two fields
the code reads via `.get(key, default)`.  A field set to `none` models a
response dictionary missing that key. -/
structure FeeHistory where
  baseFeePerGas : Option (List ℤ)
  reward : Option (List (List ℤ))
deriving DecidableEq, Repr

/-- The fee fields `_get_fee` writes into `tx_params`: either a legacy
`gasPrice`, or the EIP-1559 pair `maxFeePerGas` / `maxPriorityFeePerGas`
(with transaction type `0x2`). -/
inductive FeeParams where
  | legacy (gasPrice : ℤ)
  | eip1559 (maxFeePerGas maxPriorityFeePerGas : ℤ)
deriving DecidableEq, Repr

/-- Network calls a modelled code path performs, in order. -/
inductive RpcCall where
  | feeHistory (blockCount : ℕ) (percentiles : List ℕ)
  | gasPrice
  | getBalance
  | balanceOf
  | allowance
  | estimateGas
  | sendRawTransaction
deriving DecidableEq, Repr

/-- Python `[fee[0] for fee in reward ...]` head extraction: `fee[0]`
raises `IndexError` on an empty inner list. -/
def rewardHeads : List (List ℤ) → Except String (List ℤ)
  | [] => .ok []
  | r :: rs =>
    match r.head? with
    | none => .error "IndexError: list index out of range"
    | some h => (rewardHeads rs).map (h :: ·)

/-- Embedding of `Onchain._get_fee`.  Inputs: the current chain object,
the fee-history response the node would return (`fh`), the node's current
gas price (`gas_price`), and the three independent multiplier samples for
the `_multiply` call sites (`rLegacy` on the legacy path, `rPrio` and
`rMax` on the EIP-1559 path).  Output: the network calls performed, the
chain object after the call (its `is_eip1559` flag may have been filled),
and the resulting fee params (or the propagated exception). -/
def get_fee (chain : ChainM) (fh : FeeHistory) (gas_price : ℤ)
    (rLegacy rPrio rMax : ℚ) : List RpcCall × ChainM × Except String FeeParams :=
  -- `if self.chain.is_eip1559 is None: fee_history = w3.eth.fee_history(20, 'latest', [40]); ...`
  let fetched : Bool := chain.is_eip1559.isNone
  let calls0 : List RpcCall := if fetched then [.feeHistory 20 [40]] else []
  let chain' : ChainM :=
    match chain.is_eip1559 with
    | none => { chain with is_eip1559 := some ((fh.baseFeePerGas.getD [0]).any (· ≠ 0)) }
    | some _ => chain
  -- `if self.chain.is_eip1559 is False: tx_params['gasPrice'] = self._multiply(w3.eth.gas_price)`
  if chain'.is_eip1559 = some false then
    (calls0 ++ [.gasPrice], chain',
      .ok (.legacy (multiply gas_price rLegacy chain.multiplier)))
  else
    -- `fee_history = fee_history or self.w3.eth.fee_history(20, 'latest', [40])`
    let calls1 : List RpcCall := calls0 ++ if fetched then [] else [.feeHistory 20 [40]]
    -- `base_fee = fee_history.get('baseFeePerGas', [0])[-1]`
    match (fh.baseFeePerGas.getD [0]).getLast? with
    | none => (calls1, chain', .error "IndexError: list index out of range")
    | some base_fee =>
      -- `priority_fees = [fee[0] for fee in fee_history.get('reward', [[0]]) if fee[0] != 0] or [0]`
      match rewardHeads (fh.reward.getD [[0]]) with
      | .error e => (calls1, chain', .error e)
      | .ok heads =>
        let priority_fees :=
          match heads.filter (· ≠ 0) with
          | [] => [0]
          | l => l
        -- `median_index = len(priority_fees) // 2; priority_fees.sort()`
        let median_index := priority_fees.length / 2
        let sorted := priority_fees.insertionSort (· ≤ ·)
        let median_priority_fee := sorted.getD median_index 0
        let priority_fee := multiply median_priority_fee rPrio chain.multiplier
        let max_fee := multiply (base_fee + priority_fee) rMax chain.multiplier
        (calls1, chain', .ok (.eip1559 max_fee priority_fee))

/-- Result of `_validate_native_transfer_value` on success: the (possibly
corrected) `tx_params['value']` and whether the correction path emitted its
`logger.warning` signal. -/
structure ValidateResult where
  value : ℤ
  warned : Bool
deriving DecidableEq, Repr

/-- Embedding of `Onchain._validate_native_transfer_value`.  Inputs are the
live data the method reads from the node: the account's native balance
(`balance`), the requested transfer value in wei (`amount`), the L1 data fee
(`l1_fee`, zero except on Optimism), the gas probe `gues_gas` from the
self-transfer estimate, and the gas price `gues_gas_price`
(`maxFeePerGas` or `gasPrice` from `tx_params`).  `r1` and `r2` are the
two independent uniform samples for the two `_multiply(..., 1.1, 1.2)`
calls and `mult` is `chain.multiplier`.  On success it returns the final
`tx_params['value']`; the `ValueError` for insufficient funds is the
`.error` case. -/
def validate_native_transfer_value (balance amount l1_fee gues_gas gues_gas_price : ℤ)
    (r1 r2 mult : ℚ) : Except String ValidateResult :=
  -- `fee_spend = self._multiply(l1_fee.wei + gues_gas * gues_gas_price, 1.1, 1.2)`
  let fee_spend := multiply (l1_fee + gues_gas * gues_gas_price) r1 mult
  -- `if balance.wei - fee_spend - amount.wei >= 0: return`
  if 0 ≤ balance - fee_spend - amount then
    .ok ⟨amount, false⟩
  else
    -- `logger.warning(... Отправляем все доступные средства)`
    -- `tx_params['value'] = int(balance.wei - self._multiply(fee_spend, 1.1, 1.2))`
    let corrected := balance - multiply fee_spend r2 mult
    -- `if tx_params['value'] > 0: return`
    if 0 < corrected then
      .ok ⟨corrected, true⟩
    else
      .error "Недостаточно средств для отправки нативного токена"

/-- The successive phases of `send_token` on the native-token branch. -/
inductive SendPhase where
  | preparedBase
  | validatedValue
  | estimatedGas
  | signedAndSent
deriving DecidableEq, Repr

/-- Embedding of the native-token branch of `Onchain.send_token`:
`tx_params = self._prepare_tx(amount, to_address)`, then
`self._validate_native_transfer_value(tx_params)`, then
`amount = Amount(tx_params['value'], wei=True)`, gas estimation, and
`_sign_and_send`.  The phase list records how far the pipeline ran; when
validation raises, neither gas estimation nor signing nor submission
happens.  On success the returned integer is the wei value actually sent. -/
def send_token_native (balance amount l1_fee gues_gas gues_gas_price : ℤ)
    (r1 r2 mult : ℚ) : List SendPhase × Except String ℤ :=
  match validate_native_transfer_value balance amount l1_fee gues_gas gues_gas_price r1 r2 mult with
  | .error e => ([.preparedBase], .error e)
  | .ok res => ([.preparedBase, .validatedValue, .estimatedGas, .signedAndSent], .ok res.value)

/-- Modelled from the spec: the `Amount` fixed-point monetary value
(models/amount.py is not under src/): an integer minor-unit quantity
(`wei`) plus a decimals count; the human-scaled view is derived, never
stored. -/
structure AmountM where
  wei : ℤ
  decimals : ℕ
deriving DecidableEq, Repr

/-- Embedding of `models.token.TokenTypes`. -/
inductive TokenTypesM where
  | native
  | erc20
deriving DecidableEq, Repr

/-- Modelled from the spec: the `Token` data class (models/token.py is not
under src/): symbol, contract address, owning chain, decimals, and the
token type. -/
structure TokenM where
  symbol : String
  address : String
  chain : ChainM
  decimals : ℕ
  type_token : TokenTypesM
deriving DecidableEq, Repr

/-- Embedding of `Onchain.get_balance`.  `active` is `self.chain`,
`token?` the `token` argument (`none` = native), and `chain_balance` the
value the node would return for the relevant balance query
(`w3.eth.get_balance` or `balanceOf`).  Returns the network calls
performed and the resulting `Amount` (or the `ValueError` raised for a
token on another chain). -/
def get_balance (active : ChainM) (token? : Option TokenM) (chain_balance : ℤ) :
    List RpcCall × Except String AmountM :=
  -- `if token is None: token = Tokens.NATIVE_TOKEN; token.chain = self.chain`
  let token : TokenM :=
    match token? with
    | none => ⟨active.native_token, "native", active, 18, .native⟩
    | some t => t
  -- `if token.chain != self.chain: raise ValueError('Токен на другой сети')`
  if token.chain ≠ active then
    ([], .error "Токен на другой сети")
  else if token.type_token = TokenTypesM.native then
    -- `native_balance = self.w3.eth.get_balance(address); Amount(native_balance, wei=True)`
    ([.getBalance], .ok ⟨chain_balance, 18⟩)
  else
    -- `erc20_balance_wei = contract.functions.balanceOf(address).call()`
    ([.balanceOf], .ok ⟨chain_balance, token.decimals⟩)

/-- Embedding of the ERC-20 branch of `Onchain.send_token`: a `None`
amount resolves to the live full balance via `get_balance`; then
`balance = self.get_balance(token=token)` and
`if balance.wei < amount.wei: amount = balance`; then the transfer
transaction is built, gas-estimated, signed and sent.  `erc20_balance` is
the balance the node reports for the token; the returned integer is the
wei amount passed to `contract.functions.transfer`. -/
def send_token_erc20 (active : ChainM) (token : TokenM) (erc20_balance : ℤ)
    (amount? : Option ℤ) : List RpcCall × Except String ℤ :=
  -- `if amount is None: amount = Amount(self.get_balance(token=token).wei, ...)`
  let resolved : List RpcCall × Except String ℤ :=
    match amount? with
    | none =>
      match get_balance active (some token) erc20_balance with
      | (calls, .error e) => (calls, .error e)
      | (calls, .ok bal) => (calls, .ok bal.wei)
    | some a => ([], .ok a)
  match resolved with
  | (calls, .error e) => (calls, .error e)
  | (calls, .ok amount) =>
    -- `balance = self.get_balance(token=token)`
    match get_balance active (some token) erc20_balance with
    | (calls2, .error e) => (calls ++ calls2, .error e)
    | (calls2, .ok bal) =>
      -- `if balance.wei < amount.wei: amount = balance`
      let amount := if bal.wei < amount then bal.wei else amount
      (calls ++ calls2 ++ [.estimateGas, .sendRawTransaction], .ok amount)

/-- Embedding of `Onchain.approve`.  `active` is `self.chain`, `allowed`
is the allowance the node reports for (owner, spender), `amount` the
requested approval amount in wei.  Returns the network calls performed and
the list of `approve(spender, amount)` transactions issued (zero or one).
The body has no raise path of its own, so the result is always `.ok`; in
particular no cross-chain check is performed on `token.chain`. -/
def approve (_active : ChainM) (token? : Option TokenM) (amount : ℤ) (allowed : ℤ)
    (spender : String) : Except String (List RpcCall × List (String × ℤ)) :=
  match token? with
  | none => .ok ([], [])
  | some token =>
    -- `if token is None or token.type_token == TokenTypes.NATIVE: return`
    if token.type_token = TokenTypesM.native then
      .ok ([], [])
    else
      -- `allowed = self._get_allowance(token, spender)` — one allowance call
      -- `if amount.wei == 0 and allowed.wei == 0: return`
      if amount = 0 ∧ allowed = 0 then
        .ok ([.allowance], [])
      -- `if amount.wei != 0 and allowed.wei >= amount.wei: return`
      else if amount ≠ 0 ∧ allowed ≥ amount then
        .ok ([.allowance], [])
      else
        -- build, gas-estimate, sign and send exactly one approve transaction
        .ok ([.allowance, .estimateGas, .sendRawTransaction], [(spender, amount)])

/-- One Approval event log entry as returned by the block-explorer API:
the token contract address and the list of 32-byte topic hex strings. -/
structure ApprovalLog where
  address : String
  topics : List String
deriving DecidableEq, Repr

/-- Embedding of the log-parsing loop of `Onchain.remove_approves`:
`spender_address = '0x' + log.get('topics')[2][26:]`, and each
`(token_address, spender_address)` pair is added to a Python set
(duplicates collapse).  The set is modelled as a duplicate-free list. -/
def parse_approved (logs : List ApprovalLog) : List (String × String) :=
  (logs.map (fun l => (l.address, "0x" ++ (l.topics.getD 2 "").drop 26))).dedup

/-- Embedding of the revocation loop of `Onchain.remove_approves`:
`for token_address, spender_address in approved: ... self.approve(token, 0, spender)`.
`act` is the outcome of one pair's revocation (an `.error` models an
exception raised while revoking that pair).  The loop body has no
`try/except`, so an exception propagates out of the whole loop.  Returns
the pairs whose revocation was actually attempted, in order, and the
loop's outcome. -/
def run_revocations (pairs : List (String × String))
    (act : String × String → Except String Unit) :
    List (String × String) × Except String Unit :=
  match pairs with
  | [] => ([], .ok ())
  | p :: ps =>
    match act p with
    | .error e => ([p], .error e)
    | .ok _ =>
      let rest := run_revocations ps act
      (p :: rest.1, rest.2)

/-- Embedding of `Onchain.remove_approves`: a missing Etherscan API key is
a logged early return, an empty log list is a logged early return, and
otherwise every unique decoded `(token, spender)` pair is revoked in
turn. -/
def remove_approves (api_key : Option String) (logs : List ApprovalLog)
    (act : String × String → Except String Unit) :
    List (String × String) × Except String Unit :=
  match api_key with
  | none => ([], .ok ())
  | some _ =>
    if logs.isEmpty then ([], .ok ())
    else run_revocations (parse_approved logs) act

/-- A Python number as produced by `get_gas_price`: `/` is true division
and yields a float, whose exact mathematical value we record as a
rational; without division the Python int is returned unchanged. -/
inductive PyNum where
  | intVal (z : ℤ)
  | floatVal (q : ℚ)
deriving DecidableEq, Repr

/-- Embedding of `Onchain.get_gas_price`: `gas_price = self.w3.eth.gas_price;
if gwei: return gas_price / 10 ** 9; return gas_price`.  The `gwei=True`
default branch performs float true division. -/
def get_gas_price (gas_price : ℤ) (gwei : Bool) : PyNum :=
  if gwei then .floatVal ((gas_price : ℚ) / 10 ^ 9) else .intVal gas_price

/-- Log levels used by `Bot.__exit__` via loguru. -/
inductive LogLevel where
  | success
  | error
  | critical
deriving DecidableEq, Repr

/-- The exception information `Bot.__exit__` inspects: whether
`issubclass(exc_type, TimeoutError)` holds, and whether
`'object has no attribute: page' in str(exc_val)` holds. -/
structure ExcInfo where
  is_timeout : Bool
  msg_has_page_attr : Bool
deriving DecidableEq, Repr

/-- Embedding of `Bot.__exit__` (src/core/bot.py): after closing the
browser it logs an outcome at a level depending on the exception (if any)
and returns `True` on every branch, which tells the Python runtime to
suppress the exception.  Returns the log level chosen and the returned
boolean. -/
def bot_exit (exc : Option ExcInfo) : LogLevel × Bool :=
  match exc with
  | none => (.success, true)
  | some e =>
    if e.is_timeout then (.error, true)
    else if e.msg_has_page_attr then (.error, true)
    else (.critical, true)

/-- Distinguishes fee-history queries among the recorded network calls. -/
def isFeeHistoryCall : RpcCall → Bool
  | .feeHistory _ _ => true
  | _ => false

/-- A concrete chain object for counterexamples. -/
def chainEth : ChainM := ⟨"eth", 1, "ETH", 1, none⟩

/-- A second, distinct concrete chain object for counterexamples. -/
def chainOp : ChainM := ⟨"op", 10, "ETH", 1, none⟩

/-- A concrete ERC-20 token owned by `chainEth`, for cross-chain
counterexamples. -/
def usdtOnEth : TokenM :=
  ⟨"USDT", "0xdAC17F958D2ee523a2206206994597C13D831ec7", chainEth, 6, .erc20⟩

/-- The spender address decoded from `logTokA`'s third topic. -/
def spenderA : String := "0xaaaaaaaaaaaaaaaaaaaaaaaaaaaaaaaaaaaaaaaa"

/-- The spender address decoded from `logTokB`'s third topic. -/
def spenderB : String := "0xbbbbbbbbbbbbbbbbbbbbbbbbbbbbbbbbbbbbbbbb"

/-- A concrete Approval event log for token contract `0xtokenA`. -/
def logTokA : ApprovalLog :=
  ⟨"0xtokenA",
   ["0x8c5be1e5ebec7d5bd14f71427d1e84f3dd0314c0f7b2291e5b200ac8c7c3b925",
    "0x0000000000000000000000001111111111111111111111111111111111111111",
    "0x000000000000000000000000aaaaaaaaaaaaaaaaaaaaaaaaaaaaaaaaaaaaaaaa"]⟩

/-- A concrete Approval event log for token contract `0xtokenB`. -/
def logTokB : ApprovalLog :=
  ⟨"0xtokenB",
   ["0x8c5be1e5ebec7d5bd14f71427d1e84f3dd0314c0f7b2291e5b200ac8c7c3b925",
    "0x0000000000000000000000001111111111111111111111111111111111111111",
    "0x000000000000000000000000bbbbbbbbbbbbbbbbbbbbbbbbbbbbbbbbbbbbbbbb"]⟩

/-- A revocation outcome where revoking any pair of token `0xtokenA` raises
an exception and every other pair succeeds. -/
def act_fail_tokenA : String × String → Except String Unit :=
  fun p => if p.1 = "0xtokenA" then .error "RPC error during revoke" else .ok ()

/-! Helper lemmas shared by the claim theorems. -/

/-- `_multiply` with a unit uniform sample and a unit chain multiplier is the
identity. -/
theorem multiply_one_one (m : ℤ) : multiply m 1 1 = m := by
  unfold multiply pyInt
  rw [mul_one, mul_one]
  split
  · exact Int.floor_intCast m
  · exact Int.ceil_intCast m

/-- `rewardHeads` over singleton reward rows returns the row heads. -/
theorem rewardHeads_map_singleton (ws : List ℤ) :
    rewardHeads (ws.map fun w => [w]) = .ok ws := by
  induction ws with
  | nil => rfl
  | cons w ws ih => simp only [List.map_cons, rewardHeads, List.head?_cons, ih, Except.map]

/-- When every pair's revocation succeeds, the revocation loop attempts every
pair and returns success. -/
theorem run_revocations_all_ok (pairs : List (String × String))
    (act : String × String → Except String Unit) (hok : ∀ q, act q = .ok ()) :
    run_revocations pairs act = (pairs, .ok ()) := by
  induction pairs with
  | nil => rfl
  | cons p ps ih => simp only [run_revocations, hok p, ih]

/-! The claim theorems. -/

/-- Claim C1: for every native-asset transfer, if the live balance satisfies
`balance - fee - requestedValue >= 0` the transfer proceeds with the requested
value unchanged (no warning); otherwise, if the balance still exceeds the
margin-scaled fee, the transfer value is clamped down to
`balance - int(fee * margin)` exactly per the code's formula (the outer
`_multiply(fee_spend, 1.1, 1.2)` applied to the already-margined fee
estimate), the corrected value is positive, and the correction is surfaced by
the warning-level signal. -/
theorem C1_native_shortfall_correction
    (balance amount l1_fee gues_gas gues_gas_price : ℤ) (r1 r2 mult : ℚ) :
    (0 ≤ balance - multiply (l1_fee + gues_gas * gues_gas_price) r1 mult - amount →
      validate_native_transfer_value balance amount l1_fee gues_gas gues_gas_price r1 r2 mult =
        .ok ⟨amount, false⟩) ∧
    (balance - multiply (l1_fee + gues_gas * gues_gas_price) r1 mult - amount < 0 →
      0 < balance - multiply (multiply (l1_fee + gues_gas * gues_gas_price) r1 mult) r2 mult →
      validate_native_transfer_value balance amount l1_fee gues_gas gues_gas_price r1 r2 mult =
        .ok ⟨balance - multiply (multiply (l1_fee + gues_gas * gues_gas_price) r1 mult) r2 mult,
             true⟩ ∧
      0 < balance - multiply (multiply (l1_fee + gues_gas * gues_gas_price) r1 mult) r2 mult) := by
  constructor
  · intro h
    simp only [validate_native_transfer_value]
    rw [if_pos h]
  · intro h1 h2
    simp only [validate_native_transfer_value]
    rw [if_neg (by omega), if_pos h2]
    exact ⟨rfl, h2⟩

/-- Witness for C1 at the spec's exemplar: balance 100, requested value 95,
fee estimate (already carrying its 1.1–1.2 margin) 10, outer margin sample
1.2: the correction triggers, the corrected value is `100 - int(10 * 1.2) = 88 > 0`,
and the warning signal is set. -/
theorem C1_native_shortfall_correction_witness :
    validate_native_transfer_value 100 95 0 10 1 1 (6 / 5) 1 = .ok ⟨88, true⟩ ∧ (0 : ℤ) < 88 := by
  have h := (C1_native_shortfall_correction 100 95 0 10 1 1 (6 / 5) 1).2
    (by norm_num [multiply, pyInt]) (by norm_num [multiply, pyInt])
  have hv : (100 : ℤ) - multiply (multiply (0 + 10 * 1) 1 1) (6 / 5) 1 = 88 := by
    norm_num [multiply, pyInt]
  rw [hv] at h
  exact ⟨h.1, by norm_num⟩

/-- Counterexample to claim C2 as stated: with balance 110, requested value 10
and margined fee estimate 100, the corrected value `balance - int(fee * 1.2)
= 110 - 120` is not positive, yet the first sufficiency check passes
(`110 - 100 - 10 >= 0`), so no insufficient-funds error is raised and the
transaction is gas-estimated, signed and sent with the requested value. -/
theorem C2_counterexample :
    send_token_native 110 10 0 100 1 1 (6 / 5) 1 =
      ([.preparedBase, .validatedValue, .estimatedGas, .signedAndSent], .ok 10) ∧
    (110 : ℤ) - multiply (multiply (0 + 100 * 1) 1 1) (6 / 5) 1 ≤ 0 := by
  constructor
  · norm_num [send_token_native, validate_native_transfer_value, multiply, pyInt]
  · norm_num [multiply, pyInt]

/-- Claim C2 as amended: for every native-asset transfer where the literal
request is insufficient (`balance - fee - requestedValue < 0`) and the
corrected value `balance - int(fee * margin)` is not positive either, the
insufficient-funds `ValueError` is raised and the pipeline stops at the
validation step: no complete transaction is assembled (no gas estimation) and
nothing is signed or submitted. -/
theorem C2_insufficient_funds_aborts
    (balance amount l1_fee gues_gas gues_gas_price : ℤ) (r1 r2 mult : ℚ)
    (h1 : balance - multiply (l1_fee + gues_gas * gues_gas_price) r1 mult - amount < 0)
    (h2 : balance - multiply (multiply (l1_fee + gues_gas * gues_gas_price) r1 mult) r2 mult ≤ 0) :
    send_token_native balance amount l1_fee gues_gas gues_gas_price r1 r2 mult =
      ([.preparedBase], .error "Недостаточно средств для отправки нативного токена") := by
  have hv : validate_native_transfer_value balance amount l1_fee gues_gas gues_gas_price r1 r2 mult =
      .error "Недостаточно средств для отправки нативного токена" := by
    simp only [validate_native_transfer_value]
    rw [if_neg (by omega), if_neg (by omega)]
  simp only [send_token_native, hv]

/-- Witness for the amended C2 at the spec's exemplar: balance 5, margined fee
estimate 10, requested value 95 — the error is raised and nothing is
estimated, signed or sent. -/
theorem C2_insufficient_funds_aborts_witness :
    send_token_native 5 95 0 10 1 1 1 1 =
      ([.preparedBase], .error "Недостаточно средств для отправки нативного токена") :=
  C2_insufficient_funds_aborts 5 95 0 10 1 1 1 1
    (by norm_num [multiply, pyInt]) (by norm_num [multiply, pyInt])

/-- Counterexample to claim C3 as stated: on a chain whose fee model is
already cached as EIP-1559, a fee computation still issues a
`fee_history(20, 'latest', [40])` query (for the current base fee and reward
samples), so "never re-queries fee history once the model is cached" fails. -/
theorem C3_counterexample :
    (⟨"eth", 1, "ETH", 1, some true⟩ : ChainM).is_eip1559 = some true ∧
    get_fee ⟨"eth", 1, "ETH", 1, some true⟩ ⟨some [7], some [[3]]⟩ 100 1 1 1 =
      ([.feeHistory 20 [40]], ⟨"eth", 1, "ETH", 1, some true⟩, .ok (.eip1559 10 3)) := by
  refine ⟨rfl, ?_⟩
  norm_num [get_fee, rewardHeads, Except.map, List.insertionSort, List.orderedInsert,
    multiply, pyInt]

/-- Claim C3 as amended: fee-model classification happens at most once per
chain: a call on a chain with cached model leaves the chain object (hence the
flag) unchanged; a first call (flag unset) issues exactly one
`fee_history(20, 'latest', [40])` query, as its first network call, and caches
EIP-1559 iff any base-fee sample is non-zero.  Once cached, a legacy chain
never queries fee history again, but an EIP-1559 chain re-queries it exactly
once per fee computation for fresh base-fee and reward data. -/
theorem C3_fee_model_cached (chain : ChainM) (fh : FeeHistory) (gp : ℤ) (r1 r2 r3 : ℚ) :
    (∀ b : Bool, chain.is_eip1559 = some b →
      (get_fee chain fh gp r1 r2 r3).2.1 = chain ∧
      (get_fee chain fh gp r1 r2 r3).1.countP isFeeHistoryCall = (if b then 1 else 0)) ∧
    (chain.is_eip1559 = none →
      (get_fee chain fh gp r1 r2 r3).2.1.is_eip1559 =
        some ((fh.baseFeePerGas.getD [0]).any (· ≠ 0)) ∧
      (get_fee chain fh gp r1 r2 r3).1.countP isFeeHistoryCall = 1 ∧
      (get_fee chain fh gp r1 r2 r3).1.head? = some (.feeHistory 20 [40])) := by
  constructor
  · rintro b hb
    rcases b with _ | _
    · simp [get_fee, hb, isFeeHistoryCall]
    · simp only [get_fee, hb]
      norm_num [isFeeHistoryCall]
      rcases (fh.baseFeePerGas.getD [0]).getLast? with _ | bf
      · simp [isFeeHistoryCall]
      · rcases rewardHeads (fh.reward.getD [[0]]) with e | hs <;>
          simp [isFeeHistoryCall]
  · intro hb
    simp only [get_fee, hb]
    generalize ((fh.baseFeePerGas.getD [0]).any fun x => decide (x ≠ 0)) = flag
    cases flag with
    | false => simp [isFeeHistoryCall]
    | true =>
      norm_num [isFeeHistoryCall]
      rcases (fh.baseFeePerGas.getD [0]).getLast? with _ | bf
      · simp [isFeeHistoryCall]
      · rcases rewardHeads (fh.reward.getD [[0]]) with e | hs <;>
          simp [isFeeHistoryCall]

/-- Witness for the amended C3 on both cached branches: a cached legacy chain
performs no fee-history query at all, and a cached EIP-1559 chain performs
exactly one and keeps its flag. -/
theorem C3_fee_model_cached_witness :
    ((get_fee ⟨"bsc", 56, "BNB", 1, some false⟩ ⟨none, none⟩ 100 1 1 1).2.1 =
      ⟨"bsc", 56, "BNB", 1, some false⟩ ∧
     (get_fee ⟨"bsc", 56, "BNB", 1, some false⟩ ⟨none, none⟩ 100 1 1 1).1.countP
       isFeeHistoryCall = 0) ∧
    ((get_fee ⟨"eth", 1, "ETH", 1, some true⟩ ⟨some [7], some [[3]]⟩ 100 1 1 1).2.1 =
      ⟨"eth", 1, "ETH", 1, some true⟩ ∧
     (get_fee ⟨"eth", 1, "ETH", 1, some true⟩ ⟨some [7], some [[3]]⟩ 100 1 1 1).1.countP
       isFeeHistoryCall = 1) := by
  constructor
  · have h := (C3_fee_model_cached ⟨"bsc", 56, "BNB", 1, some false⟩ ⟨none, none⟩ 100 1 1 1).1
      false rfl
    simpa using h
  · have h := (C3_fee_model_cached ⟨"eth", 1, "ETH", 1, some true⟩ ⟨some [7], some [[3]]⟩
      100 1 1 1).1 true rfl
    simpa using h

/-- Claim C4: in EIP-1559 fee computation the priority fee is selected from
the non-zero reward samples by sorting and taking the element at index
`len // 2` (the upper median for even-length lists), falling back to `[0]`
when every sample is zero: with unit multipliers, reward samples
`[2,4,6,8]` yield priority fee 6 (not the average 5), all-zero samples yield
0, and `maxFeePerGas` is the margined sum of the last base fee and the
priority fee. -/
theorem C4_upper_median_priority_fee (n nt : String) (cid b gp : ℤ) (r3 : ℚ)
    (ws : List ℤ) (hnz : ws.filter (· ≠ 0) = ws) (hne : ws ≠ []) :
    (get_fee ⟨n, cid, nt, 1, some true⟩ ⟨some [b], some (ws.map fun w => [w])⟩
        gp 1 1 r3).2.2 =
      .ok (.eip1559
        (multiply (b + (ws.insertionSort (· ≤ ·)).getD (ws.length / 2) 0) r3 1)
        ((ws.insertionSort (· ≤ ·)).getD (ws.length / 2) 0)) ∧
    (get_fee ⟨n, cid, nt, 1, some true⟩ ⟨some [b], some [[2], [4], [6], [8]]⟩
        gp 1 1 r3).2.2 = .ok (.eip1559 (multiply (b + 6) r3 1) 6) ∧
    (get_fee ⟨n, cid, nt, 1, some true⟩ ⟨some [b], some [[0], [0]]⟩
        gp 1 1 r3).2.2 = .ok (.eip1559 (multiply (b + 0) r3 1) 0) ∧
    (6 : ℤ) ≠ (4 + 6) / 2 := by
  refine ⟨?_, ?_, ?_, by norm_num⟩
  · rcases ws with _ | ⟨w, ws'⟩
    · exact absurd rfl hne
    · simp only [get_fee, Option.getD_some, rewardHeads_map_singleton,
        List.getLast?_singleton]
      rw [hnz]
      simp [multiply_one_one]
  · simp only [get_fee, rewardHeads, Except.map, List.head?_cons]
    norm_num [List.insertionSort, List.orderedInsert, multiply_one_one]
  · simp only [get_fee, rewardHeads, Except.map, List.head?_cons]
    norm_num [List.insertionSort, List.orderedInsert, multiply_one_one]

/-- Witness for C4 at the spec's exemplar `[2,4,6,8]`: the even-length sample
set picks index `4 // 2 = 2` of the sorted samples, value 6, and
`maxFeePerGas = base 1 + 6 = 7` under unit multipliers. -/
theorem C4_upper_median_priority_fee_witness :
    (get_fee ⟨"eth", 1, "ETH", 1, some true⟩ ⟨some [1], some [[2], [4], [6], [8]]⟩
        0 1 1 1).2.2 = .ok (.eip1559 7 6) := by
  have h := (C4_upper_median_priority_fee "eth" "ETH" 1 1 0 1 [2, 4, 6, 8]
    (by decide) (by decide)).2.1
  rw [h, multiply_one_one]
  norm_num

/-- Claim C5: `approve` is idempotent against the existing allowance: it
issues zero transactions when the requested amount is zero and the allowance
is already zero, zero when the requested amount is non-zero and the allowance
already meets or exceeds it, and otherwise exactly one
`approve(spender, amount)` transaction; for native assets (and a missing
token) it is a no-op.  In particular amount 100 against allowance 150 sends
nothing and against allowance 50 sends exactly one approve(100). -/
theorem C5_approve_idempotent (sym addr : String) (c : ChainM) (d : ℕ)
    (amount allowed : ℤ) (spender : String) :
    approve c (some ⟨sym, addr, c, d, .erc20⟩) amount allowed spender =
      .ok (if (amount = 0 ∧ allowed = 0) ∨ (amount ≠ 0 ∧ allowed ≥ amount)
           then ([.allowance], [])
           else ([.allowance, .estimateGas, .sendRawTransaction], [(spender, amount)])) ∧
    approve c (some ⟨sym, addr, c, d, .native⟩) amount allowed spender = .ok ([], []) ∧
    approve c none amount allowed spender = .ok ([], []) ∧
    approve c (some ⟨sym, addr, c, d, .erc20⟩) 100 150 spender = .ok ([.allowance], []) ∧
    approve c (some ⟨sym, addr, c, d, .erc20⟩) 100 50 spender =
      .ok ([.allowance, .estimateGas, .sendRawTransaction], [(spender, 100)]) := by
  refine ⟨?_, rfl, rfl, by simp [approve], by simp [approve]⟩
  simp only [approve]
  split_ifs with h1 h2 h3 <;> simp_all
  omega

/-- Counterexample to claim C6 as stated: `approve` performs no cross-chain
check at all — approving a token owned by `chainEth` while the active chain
is `chainOp` raises nothing and proceeds to query the allowance and submit
the approval transaction. -/
theorem C6_counterexample :
    usdtOnEth.chain ≠ chainOp ∧
    approve chainOp (some usdtOnEth) 100 0 "0xspender" =
      .ok ([.allowance, .estimateGas, .sendRawTransaction], [("0xspender", 100)]) := by
  refine ⟨by decide, by simp [approve, usdtOnEth]⟩

/-- Claim C6 as amended: for every token whose owning chain differs from the
active chain, `get_balance` raises the cross-chain `ValueError` before any
network call (its network-call trace is empty), and a token transfer hits the
same check through its balance query, aborting with no network call; but
`approve` performs no cross-chain check and completes without raising. -/
theorem C6_cross_chain_checks (active : ChainM) (token : TokenM) (bal amt allowed : ℤ)
    (sp : String) (amount? : Option ℤ) (h : token.chain ≠ active) :
    get_balance active (some token) bal = ([], .error "Токен на другой сети") ∧
    send_token_erc20 active token bal amount? = ([], .error "Токен на другой сети") ∧
    ∃ r, approve active (some token) amt allowed sp = .ok r := by
  have hb : get_balance active (some token) bal = ([], .error "Токен на другой сети") := by
    simp only [get_balance]
    rw [if_pos h]
  refine ⟨hb, ?_, ?_⟩
  · rcases amount? with _ | a <;> simp [send_token_erc20, hb]
  · simp only [approve]
    split_ifs <;> exact ⟨_, rfl⟩

/-- Witness for the amended C6 on the concrete cross-chain pair
(`usdtOnEth` used while `chainOp` is active). -/
theorem C6_cross_chain_checks_witness :
    get_balance chainOp (some usdtOnEth) 300 = ([], .error "Токен на другой сети") ∧
    send_token_erc20 chainOp usdtOnEth 300 (some 50) = ([], .error "Токен на другой сети") ∧
    ∃ r, approve chainOp (some usdtOnEth) 100 0 "0xspender" = .ok r :=
  C6_cross_chain_checks chainOp usdtOnEth 300 100 0 "0xspender" (some 50) (by decide)

set_option maxRecDepth 40000 in
/-- Counterexample to claim C7 as stated: with two distinct approval pairs
decoded from the logs, an exception while revoking the first pair aborts the
loop — the second pair's revocation is never attempted (there is no per-pair
isolation in the loop). -/
theorem C7_counterexample :
    parse_approved [logTokA, logTokB] =
      [("0xtokenA", spenderA), ("0xtokenB", spenderB)] ∧
    remove_approves (some "APIKEY") [logTokA, logTokB] act_fail_tokenA =
      ([("0xtokenA", spenderA)], .error "RPC error during revoke") := by
  constructor
  · rfl
  · rfl

/-- Claim C7 as amended: each unique `(token, spender)` pair is revoked at
most once (the decoded pairs are duplicate-free, and duplicated logs collapse
to a single pair), and when every revocation succeeds each unique pair is
attempted exactly once; but revocations are not isolated — an exception while
revoking a pair stops the loop and the remaining pairs are never attempted. -/
theorem C7_revocation_loop (logs : List ApprovalLog) (l : ApprovalLog)
    (act : String × String → Except String Unit) (p : String × String)
    (ps : List (String × String)) (e : String) :
    (parse_approved logs).Nodup ∧
    parse_approved [l, l, l] = parse_approved [l] ∧
    ((∀ q, act q = .ok ()) →
      run_revocations (parse_approved logs) act = (parse_approved logs, .ok ())) ∧
    (act p = .error e → run_revocations (p :: ps) act = ([p], .error e)) := by
  refine ⟨List.nodup_dedup _, ?_, fun hok => run_revocations_all_ok _ act hok, fun hf => ?_⟩
  · simp [parse_approved]
  · simp only [run_revocations, hf]

/-- Witness for the amended C7: with all-success revocations both decoded
pairs are attempted; with the failing revocation outcome the loop stops at
the failing pair. -/
theorem C7_revocation_loop_witness :
    run_revocations (parse_approved [logTokA, logTokB]) (fun _ => .ok ()) =
      (parse_approved [logTokA, logTokB], .ok ()) ∧
    run_revocations [("0xtokenA", spenderA)] act_fail_tokenA =
      ([("0xtokenA", spenderA)], .error "RPC error during revoke") :=
  ⟨(C7_revocation_loop [logTokA, logTokB] logTokA (fun _ => .ok ())
      ("0xtokenA", spenderA) [] "RPC error during revoke").2.2.1 (fun _ => rfl),
   (C7_revocation_loop [] logTokA act_fail_tokenA
      ("0xtokenA", spenderA) [] "RPC error during revoke").2.2.2 rfl⟩

/-- Claim C8: for every ERC-20 transfer on the active chain, a requested
amount exceeding the token balance is clamped to the full token balance (a
simple clamp with no fee deduction — requesting 1000 against balance 300
sends 300), and a request with no amount given resolves to the live full
balance fetched at request time. -/
theorem C8_erc20_amount_clamp (sym addr : String) (c : ChainM) (d : ℕ) (bal a : ℤ) :
    (send_token_erc20 c ⟨sym, addr, c, d, .erc20⟩ bal (some a)).2 =
      .ok (if bal < a then bal else a) ∧
    (send_token_erc20 c ⟨sym, addr, c, d, .erc20⟩ bal none).2 = .ok bal ∧
    (send_token_erc20 c ⟨sym, addr, c, d, .erc20⟩ 300 (some 1000)).2 = .ok 300 := by
  refine ⟨?_, ?_, ?_⟩ <;> simp [send_token_erc20, get_balance]

/-- Counterexample to claim C9 as stated: `get_gas_price` with the default
`gwei=True` computes `gas_price / 10 ** 9` by float true division and returns
a bare float, not an `Amount`; at `gas_price = 1` wei the returned value
`1 / 10^9` is not even an integer, so the result is not an integer minor-unit
quantity and floating-point arithmetic was used. -/
theorem C9_counterexample :
    get_gas_price 1 true = .floatVal (1 / 10 ^ 9) ∧
    ¬ ∃ z : ℤ, ((1 : ℚ) / 10 ^ 9) = (z : ℚ) := by
  refine ⟨by norm_num [get_gas_price], ?_⟩
  rintro ⟨z, hz⟩
  have h0 : (0 : ℚ) < (z : ℚ) := by rw [← hz]; norm_num
  have h1 : (z : ℚ) < 1 := by rw [← hz]; norm_num
  have h0' : (0 : ℤ) < z := by exact_mod_cast h0
  have h1' : z < 1 := by exact_mod_cast h1
  omega

/-- Claim C9 as amended: balance queries produce `Amount` values (integer
minor units plus a decimals count: the token's decimals for ERC-20, 18 for
the native asset), but `get_gas_price` returns a bare number, not an
`Amount`: the integer wei gas price when `gwei=False`, and the float
`gas_price / 10^9` produced by true division when `gwei=True` (the
default). -/
theorem C9_amount_abstraction (gp : ℤ) (active : ChainM) (sym addr : String)
    (d : ℕ) (bal : ℤ) :
    get_gas_price gp false = .intVal gp ∧
    get_gas_price gp true = .floatVal ((gp : ℚ) / 10 ^ 9) ∧
    (get_balance active (some ⟨sym, addr, active, d, .erc20⟩) bal).2 = .ok ⟨bal, d⟩ ∧
    (get_balance active none bal).2 = .ok ⟨bal, 18⟩ := by
  refine ⟨rfl, rfl, ?_, ?_⟩ <;> simp [get_balance]

/-- Claim C10: for every exception (of any type) raised inside a
`with Bot(account)` block, `Bot.__exit__` returns `True`, so the exception is
suppressed and never propagates; control flow is identical for a failed and
a successful session, and only the log level distinguishes them (`success`
on clean exit, `error`/`critical` otherwise). -/
theorem C10_bot_exit_suppresses (exc : Option ExcInfo) :
    (bot_exit exc).2 = true ∧
    (bot_exit none).1 = .success ∧
    (bot_exit (some ⟨false, false⟩)).1 = .critical := by
  refine ⟨?_, rfl, rfl⟩
  rcases exc with _ | ⟨t, m⟩
  · rfl
  · cases t <;> cases m <;> rfl

end TheTemplate
